import Mathlib

/-!
Verification of the PromptFlux session-orchestration core.

The definitions below are a shallow embedding of the TypeScript sources:
  * `Coordinator` embeds `electron-app/src/main/index.ts` (module-level
    session state, `beginRecording`, `stopRecording`,
    `clearWakeAutoStopTimer`, and the handlers registered in
    `createWsClient` / `registerRecordHotkey`).
  * `Watchdog` embeds the `SttProcessWatchdog` class (crash ledger,
    `handleCrashAndRestart`, and the child `exit` listener).
  * `WsClient` embeds the `SttWebSocketClient` class (`connect` retry loop,
    inbound message dispatch, `send`, `isConnected`).
  * `Hotkey` embeds the stdout line handler of
    `HotkeyController.registerHoldToTalkHotkey`.

Renderer side effects (status / transcript updates) are modelled as fields of
the state; sound cues, clipboard output delivery and log lines are pure
side effects with no influence on control flow and are not modelled.
JavaScript one-shot timers (`setTimeout` handles) are modelled explicitly: the
runtime's set of live timers is a list in the state, arming appends a timer
with a fresh identifier, `clearTimeout` removes it, and a timer can only fire
while it is still in that list (firing removes it, so a timer fires at most
once).  The status-revert timers (`setTimeout(() => setStatus "idle", ...)`)
only touch the status string and are not tracked.
-/

namespace PromptFlux

/-- Trigger mode from `AppConfig.triggerMode`. -/
inductive TriggerMode where
  | holdToTalk
  | pressToTalk
  | wakeWord
deriving DecidableEq, Repr

/-- Reason argument of `beginRecording` in `index.ts`. -/
inductive StartReason where
  | hotkey
  | wake
  | tap
deriving DecidableEq, Repr

/-- Reason argument of `stopRecording` in `index.ts`. -/
inductive StopReason where
  | hotkey
  | wakeTimeout
  | wakeSilence
  | tapTimeout
  | tapSilence
deriving DecidableEq, Repr

/-- A control-channel frame sent by the coordinator.  `START` carries the
optional `{reason: ...}` payload (`undefined` for a hotkey start), `STOP`
carries the configured transcription language. -/
inductive Frame where
  | start (reason : Option StartReason)
  | stop (language : String)
  | quit
deriving DecidableEq, Repr

/-- A pending `setTimeout` handle for the wake auto-stop timer.  The closure in
`beginRecording` captures the start reason and the clamped duration. -/
structure Timer where
  id : Nat
  delayMs : Int
  startReason : StartReason
deriving DecidableEq, Repr

/-- The module-level mutable state of `index.ts` that the session coordinator
reads and writes, together with the model of the JavaScript timer runtime
(`pendingTimers`, `nextTimerId`).  `connected` is the value of
`sttClient?.isConnected()`; `status` / `transcript` / `transcriptKind` are the
renderer-visible values set by `setRendererStatus` / `setRendererTranscript`;
`hotkeyEdgeActive` mirrors `hotkeyController`'s edge flag, cleared by
`resetState()`. -/
structure CoordState where
  recordingActive : Bool
  wakeAutoStopTimer : Option Timer
  pendingTimers : List Timer
  nextTimerId : Nat
  connected : Bool
  status : String
  transcript : String
  transcriptKind : String
  hotkeyEdgeActive : Bool
  triggerMode : TriggerMode
  wakeRecordMs : Int
  wakeWord : String
  transcriptionLanguage : String
deriving DecidableEq, Repr

/-- Model of the JavaScript `String.prototype.trim()`: strip whitespace from
both ends (structurally recursive so that concrete inputs evaluate). -/
def jsTrim (s : String) : String :=
  String.mk (((s.data.dropWhile Char.isWhitespace).reverse.dropWhile
    Char.isWhitespace).reverse)

/-- Embeds `setRendererStatus`. -/
def setRendererStatus (s : CoordState) (st : String) : CoordState :=
  { s with status := st }

/-- Embeds `setRendererTranscript`. -/
def setRendererTranscript (s : CoordState) (text kind : String) : CoordState :=
  { s with transcript := text, transcriptKind := kind }

/-- Embeds `clearWakeAutoStopTimer`: if the handle variable is set, the timer
is cancelled (`clearTimeout`, i.e. removed from the live-timer list) and the
variable is reset to `null`. -/
def clearWakeAutoStopTimer (s : CoordState) : CoordState :=
  match s.wakeAutoStopTimer with
  | none => s
  | some t =>
    { s with
      wakeAutoStopTimer := none,
      pendingTimers := s.pendingTimers.filter (fun p => p.id ≠ t.id) }

/-- Message shown by `beginRecording` for a wake- or tap-triggered session. -/
def beginMessage (s : CoordState) (reason : StartReason) : String :=
  if reason = StartReason.wake then
    "Wake word detected: \"" ++ s.wakeWord ++ "\". Listening until silence..."
  else
    "Tap-to-talk active. Speak now; recording will stop on silence."

/-- Embeds `beginRecording` from `index.ts`.  Returns the new state and the
list of frames sent over the channel. -/
def beginRecording (s : CoordState) (reason : StartReason) : CoordState × List Frame :=
  if s.recordingActive then (s, [])
  else if !s.connected then
    (setRendererTranscript (setRendererStatus s "error")
      "STT service is not connected." "error", [])
  else
    let s1 := { s with recordingActive := true }
    let frames := [Frame.start
      (if reason = StartReason.wake then some StartReason.wake
       else if reason = StartReason.tap then some StartReason.tap
       else none)]
    let s2 := setRendererStatus s1 "recording"
    if reason = StartReason.wake ∨ reason = StartReason.tap then
      let s3 := clearWakeAutoStopTimer s2
      let wakeTimeoutMs : Int := max 1200 (min 30000 s3.wakeRecordMs)
      let t : Timer := { id := s3.nextTimerId, delayMs := wakeTimeoutMs, startReason := reason }
      let s4 := { s3 with
        wakeAutoStopTimer := some t,
        pendingTimers := s3.pendingTimers ++ [t],
        nextTimerId := s3.nextTimerId + 1 }
      (setRendererTranscript s4 (beginMessage s4 reason) "recording", frames)
    else
      (setRendererTranscript s2 "Listening..." "recording", frames)

/-- Transitional message shown by `stopRecording` per stop reason. -/
def stopMessage (reason : StopReason) : String :=
  match reason with
  | StopReason.wakeTimeout => "Wake max duration reached. Transcribing..."
  | StopReason.tapTimeout => "Tap-to-talk max duration reached. Transcribing..."
  | StopReason.wakeSilence => "Silence detected. Transcribing..."
  | StopReason.tapSilence => "Silence detected. Transcribing..."
  | StopReason.hotkey => "Transcribing..."

/-- Embeds `stopRecording` from `index.ts`. -/
def stopRecording (s : CoordState) (reason : StopReason) : CoordState × List Frame :=
  if !s.recordingActive then (s, [])
  else
    let s1 := clearWakeAutoStopTimer s
    let s2 := { s1 with recordingActive := false }
    if !s2.connected then
      (setRendererTranscript (setRendererStatus s2 "error")
        "STT service is not connected." "error", [])
    else
      let s3 := setRendererStatus s2 "transcribing"
      let s4 := setRendererTranscript s3 (stopMessage reason) "transcribing"
      (s4, [Frame.stop s4.transcriptionLanguage])

/-- Events consumed by the coordinator: edge-detected hotkey callbacks, the
four inbound worker messages it reacts to, and a timer firing. -/
inductive Event where
  | hotkeyStart
  | hotkeyStop
  | wakeMsg (wakeWord : Option String)
  | autoStopMsg (reason : Option String)
  | resultMsg (text : String)
  | errorMsg (code message : String)
  | timerFire (id : Nat)
deriving DecidableEq, Repr

/-- Embeds the `onWake` handler of `createWsClient`: bail out unless the
configured trigger mode is wake-word, adopt a non-empty differing detected
phrase into the config, then call `beginRecording("wake")`. -/
def onWakeHandler (s : CoordState) (w : Option String) : CoordState × List Frame :=
  if s.triggerMode ≠ TriggerMode.wakeWord then (s, [])
  else
    let s1 :=
      match w with
      | some ww => if ww ≠ "" ∧ ww ≠ s.wakeWord then { s with wakeWord := ww } else s
      | none => s
    beginRecording s1 StartReason.wake

/-- Embeds the `onAutoStop` handler of `createWsClient`. -/
def onAutoStopHandler (s : CoordState) (reason : Option String) : CoordState × List Frame :=
  if !s.recordingActive then (s, [])
  else if s.triggerMode = TriggerMode.pressToTalk then
    stopRecording s (if reason = some "silence" then StopReason.tapSilence else StopReason.tapTimeout)
  else
    stopRecording s (if reason = some "silence" then StopReason.wakeSilence else StopReason.wakeTimeout)

/-- Embeds the `onResult` handler of `createWsClient` (output delivery and the
success cue are pure side effects, not modelled). -/
def onResultHandler (s : CoordState) (text : String) : CoordState × List Frame :=
  let s1 := clearWakeAutoStopTimer { s with recordingActive := false }
  let finalText := if jsTrim text ≠ "" then text else "(No speech detected)"
  let s2 := setRendererStatus (setRendererTranscript s1 finalText "success") "success"
  ({ s2 with hotkeyEdgeActive := false }, [])

/-- Embeds the `onError` handler of `createWsClient`. -/
def onErrorHandler (s : CoordState) (code message : String) : CoordState × List Frame :=
  let s1 := clearWakeAutoStopTimer { s with recordingActive := false }
  let s2 := setRendererStatus (setRendererTranscript s1 (code ++ ": " ++ message) "error") "error"
  ({ s2 with hotkeyEdgeActive := false }, [])

/-- Embeds the `onStart` hotkey callback of `registerRecordHotkey`. -/
def onHotkeyStart (s : CoordState) : CoordState × List Frame :=
  if s.triggerMode = TriggerMode.pressToTalk then (s, [])
  else beginRecording s StartReason.hotkey

/-- Embeds the `onStop` hotkey callback of `registerRecordHotkey`. -/
def onHotkeyStop (s : CoordState) : CoordState × List Frame :=
  if s.triggerMode = TriggerMode.pressToTalk then
    if s.recordingActive then stopRecording s StopReason.hotkey
    else beginRecording s StartReason.tap
  else stopRecording s StopReason.hotkey

/-- Firing of a live one-shot timer: only possible while the timer is still in
the runtime's live list; firing removes it and runs the `setTimeout` callback
from `beginRecording`, which calls `stopRecording` with the timeout reason iff
the session is still active. -/
def onTimerFire (s : CoordState) (id : Nat) : CoordState × List Frame :=
  match s.pendingTimers.find? (fun p => p.id = id) with
  | none => (s, [])
  | some t =>
    let s1 := { s with pendingTimers := s.pendingTimers.filter (fun p => p.id ≠ id) }
    if s1.recordingActive then
      stopRecording s1
        (if t.startReason = StartReason.tap then StopReason.tapTimeout else StopReason.wakeTimeout)
    else (s1, [])

/-- One coordinator step: dispatch an event to its handler in `index.ts`. -/
def step (s : CoordState) (e : Event) : CoordState × List Frame :=
  match e with
  | Event.hotkeyStart => onHotkeyStart s
  | Event.hotkeyStop => onHotkeyStop s
  | Event.wakeMsg w => onWakeHandler s w
  | Event.autoStopMsg r => onAutoStopHandler s r
  | Event.resultMsg t => onResultHandler s t
  | Event.errorMsg c m => onErrorHandler s c m
  | Event.timerFire id => onTimerFire s id

/-- Run a list of events through the coordinator, keeping the state. -/
def runEvents (s : CoordState) (es : List Event) : CoordState :=
  es.foldl (fun st e => (step st e).1) s

namespace Watchdog

/-- Mutable state of the `SttProcessWatchdog` class: whether `this.child` is
non-null, the crash-timestamp ledger `this.restartTimestamps` (milliseconds),
and the `this.stopping` intentional-stop flag. -/
structure WatchdogState where
  childAlive : Bool
  restartTimestamps : List Int
  stopping : Bool
deriving DecidableEq, Repr

/-- Outcome of a crash: either a respawn scheduled via `setTimeout(...,
delayMs)`, or the fatal message handed to `onFatalExit` with no respawn. -/
inductive CrashOutcome where
  | respawn (delayMs : Nat)
  | fatal (message : String)
deriving DecidableEq, Repr

/-- Fatal message produced by `handleCrashAndRestart`. -/
def fatalMessage : String :=
  "STT service crashed repeatedly and restart limit was reached."

/-- Embeds `handleCrashAndRestart`: prune ledger entries strictly older than
30 seconds, append the current time, then either return the fatal message
(count above 3) or schedule a respawn after 500ms. -/
def handleCrashAndRestart (now : Int) (s : WatchdogState) : WatchdogState × CrashOutcome :=
  let ledger := (s.restartTimestamps.filter (fun ts => now - ts ≤ 30000)) ++ [now]
  let s1 := { s with restartTimestamps := ledger }
  if ledger.length > 3 then (s1, CrashOutcome.fatal fatalMessage)
  else (s1, CrashOutcome.respawn 500)

/-- Embeds the child `exit` listener: clear the handle, and do nothing when
the stop was intentional or the exit code is 0; otherwise run the crash
handler.  A `null` exit code (killed by signal) counts as a crash. -/
def onChildExit (now : Int) (code : Option Int) (s : WatchdogState) :
    WatchdogState × Option CrashOutcome :=
  let s0 := { s with childAlive := false }
  if s0.stopping ∨ code = some 0 then (s0, none)
  else
    let r := handleCrashAndRestart now s0
    (r.1, some r.2)

/-- Watchdog state right after `start()`: live child, empty ledger. -/
def initWatchdog : WatchdogState :=
  { childAlive := true, restartTimestamps := [], stopping := false }

/-- State after a sequence of crashes handled by `handleCrashAndRestart`. -/
def crashSeq (ts : List Int) : WatchdogState :=
  ts.foldl (fun s t => (handleCrashAndRestart t s).1) initWatchdog

end Watchdog

namespace WsClient

/-- WebSocket ready states (from the `ws` library). -/
inductive ReadyState where
  | connecting
  | opened
  | closing
  | closed
deriving DecidableEq, Repr

/-- Mutable state of the `SttWebSocketClient` class relevant to `send` and
`isConnected`: `this.ws` is either `null` or a socket with a ready state.
The class has no queue or buffer field of any kind. -/
structure ClientState where
  ws : Option ReadyState
deriving DecidableEq, Repr

/-- Embeds `isConnected`: `this.ws?.readyState === WebSocket.OPEN`. -/
def isConnected (s : ClientState) : Bool :=
  s.ws = some ReadyState.opened

/-- A frame as put on the wire by `send`: the bare kind string, or the JSON
object `{type, ...payload}`. -/
inductive WireFrame where
  | bare (kind : String)
  | json (kind : String) (payload : List (String × String))
deriving DecidableEq, Repr

/-- Embeds `send`: return without doing anything unless the socket exists and
is open; otherwise transmit the bare kind (empty payload) or the JSON-merged
frame.  The returned state is the complete post-state of the client. -/
def send (s : ClientState) (kind : String) (payload : List (String × String)) :
    ClientState × List WireFrame :=
  if s.ws ≠ some ReadyState.opened then (s, [])
  else if payload.length = 0 then (s, [WireFrame.bare kind])
  else (s, [WireFrame.json kind payload])

/-- Trace events of the `connect` retry loop: a connection attempt (numbered
from 1) or a sleep of `delayMs` milliseconds between attempts. -/
inductive CEvent where
  | attempt (i : Nat)
  | sleep (ms : Nat)
deriving DecidableEq, Repr

/-- Embeds the body of `connect`'s `for` loop.  `remaining + 1` is the number
of attempts still allowed including the current one, so `remaining = 0` means
`attempt === maxAttempts`; on that last failure the loop throws (result
`false`), otherwise it sleeps `delayMs` and retries.  `ok i` tells whether the
i-th `connectOnce()` resolves. -/
def connectLoop (ok : Nat → Bool) (delayMs : Nat) : Nat → Nat → List CEvent × Bool
  | _, 0 => ([], true)
  | attempt, remaining + 1 =>
    if ok attempt then ([CEvent.attempt attempt], true)
    else if remaining = 0 then ([CEvent.attempt attempt], false)
    else
      let r := connectLoop ok delayMs (attempt + 1) remaining
      (CEvent.attempt attempt :: CEvent.sleep delayMs :: r.1, r.2)

/-- Embeds `connect(maxAttempts, delayMs)`: run the loop from attempt 1.
The boolean is `true` iff the promise resolves (a `connectOnce` succeeded, or
the loop body never ran), `false` iff it rejects with the connection error. -/
def connect (ok : Nat → Bool) (maxAttempts delayMs : Nat) : List CEvent × Bool :=
  connectLoop ok delayMs 1 maxAttempts

/-- Number of connection attempts recorded in a trace. -/
def attemptCount (tr : List CEvent) : Nat :=
  (tr.filter (fun e => match e with | CEvent.attempt _ => true | _ => false)).length

/-- Expected trace of attempts `is` separated by `delayMs` sleeps (the spec's
"a delayMs pause between consecutive attempts"). -/
def weave (delayMs : Nat) : List Nat → List CEvent
  | [] => []
  | [i] => [CEvent.attempt i]
  | i :: j :: rest => CEvent.attempt i :: CEvent.sleep delayMs :: weave delayMs (j :: rest)

/-- Specification-side description of `connect` (from the spec: try up to
`maxAttempts` times with `delayMs` between attempts, stop at the first
success, reject after the last failure): if some attempt in `1..maxAttempts`
succeeds, the trace is the attempts up to the first success and the call
resolves; otherwise all `maxAttempts` attempts appear and the call rejects. -/
def connectSpec (ok : Nat → Bool) (maxAttempts delayMs : Nat) : List CEvent × Bool :=
  match (List.range' 1 maxAttempts).find? ok with
  | some k => (weave delayMs (List.range' 1 k), true)
  | none => (weave delayMs (List.range' 1 maxAttempts), false)

/-- Inbound payload fields the dispatcher reads (absent JSON keys are
`none`). -/
structure Payload where
  wake_word : Option String
  heard : Option String
  reason : Option String
  text : Option String
  code : Option String
  message : Option String
deriving DecidableEq, Repr

/-- Payload of a frame carrying no JSON object. -/
def emptyPayload : Payload :=
  { wake_word := none, heard := none, reason := none, text := none,
    code := none, message := none }

/-- Handler table registered with the client.  Handlers are TypeScript
functions that may throw: a thrown exception is an `Except.error`. -/
structure Handlers (ε : Type) where
  onReady : Unit → Except ε Unit
  onWake : Option String → Option String → Except ε Unit
  onAutoStop : Option String → Except ε Unit
  onResult : String → Except ε Unit
  onError : String → String → Except ε Unit

/-- Embeds the `ws.on("message", ...)` callback installed by `connectOnce`
after the frame has been classified by `parseType` / `parseObject`: the kind
string selects exactly one handler, which is applied directly — the callback
contains no try/catch, so the handler's outcome (including a thrown
exception) is the outcome of the dispatch itself.  An unknown kind invokes no
handler. -/
def dispatchMessage {ε : Type} (h : Handlers ε) (kind : String) (p : Payload) :
    Except ε Unit :=
  if kind = "READY" then h.onReady ()
  else if kind = "WAKE" then h.onWake p.wake_word p.heard
  else if kind = "AUTO_STOP" then h.onAutoStop p.reason
  else if kind = "RESULT" then h.onResult (p.text.getD "")
  else if kind = "ERROR" then h.onError (p.code.getD "UNKNOWN") (p.message.getD "Unknown error")
  else Except.ok ()

end WsClient

namespace Hotkey

/-- Callbacks emitted by the hotkey edge detector. -/
inductive Cb where
  | onStart
  | onStop
deriving DecidableEq, Repr

/-- Embeds the per-line body of the `stdout` data handler in
`registerHoldToTalkHotkey`: a trimmed `DOWN` while not active fires
`onStart` and sets the flag; a trimmed `UP` while active fires `onStop` and
clears it; anything else changes nothing. -/
def processLine (active : Bool) (line : String) : Bool × List Cb :=
  let event := jsTrim line
  if event = "DOWN" ∧ active = false then (true, [Cb.onStart])
  else if event = "UP" ∧ active = true then (false, [Cb.onStop])
  else (active, [])

/-- Process a whole sequence of watcher lines, accumulating callbacks. -/
def processLines (active : Bool) : List String → Bool × List Cb
  | [] => (active, [])
  | l :: ls =>
    let r := processLine active l
    let rest := processLines r.1 ls
    (rest.1, r.2 ++ rest.2)

/-- The successive values of the `active` flag after each line. -/
def flagTrace (active : Bool) : List String → List Bool
  | [] => []
  | l :: ls =>
    let b := (processLine active l).1
    b :: flagTrace b ls

/-- Specification-side edge extraction (from the spec: one `onStart` per
rising edge of the flag, one `onStop` per falling edge, nothing otherwise). -/
def specEdges (b : Bool) : List Bool → List Cb
  | [] => []
  | b' :: bs =>
    (if b = b' then [] else [if b' then Cb.onStart else Cb.onStop]) ++ specEdges b' bs

end Hotkey

/-- A concrete idle coordinator state in wake-word mode with the channel
connected, used by witnesses and counterexamples. -/
def demoIdle : CoordState :=
  { recordingActive := false, wakeAutoStopTimer := none, pendingTimers := [],
    nextTimerId := 0, connected := true, status := "idle", transcript := "",
    transcriptKind := "neutral", hotkeyEdgeActive := false,
    triggerMode := TriggerMode.wakeWord, wakeRecordMs := 8000,
    wakeWord := "hey app", transcriptionLanguage := "auto" }

/-- `demoIdle` after the worker reports a wake word: a recording session with
the auto-stop timer armed. -/
def demoRecording : CoordState := (step demoIdle (Event.wakeMsg none)).1

/-- `demoRecording` after a silence auto-stop: the transcribing phase
(`active` flag already cleared, `STOP` already sent). -/
def demoTranscribing : CoordState :=
  (step demoRecording (Event.autoStopMsg (some "silence"))).1

/-- A concrete active hold-to-talk session. -/
def demoActiveHold : CoordState :=
  { recordingActive := true, wakeAutoStopTimer := none, pendingTimers := [],
    nextTimerId := 0, connected := true, status := "recording", transcript := "",
    transcriptKind := "recording", hotkeyEdgeActive := true,
    triggerMode := TriggerMode.holdToTalk, wakeRecordMs := 8000,
    wakeWord := "hey app", transcriptionLanguage := "auto" }

/-- A concrete tap-to-talk timer handle. -/
def demoTimer : Timer := { id := 0, delayMs := 8000, startReason := StartReason.tap }

/-- A concrete active tap session whose channel has dropped. -/
def demoDisconnected : CoordState :=
  { recordingActive := true, wakeAutoStopTimer := some demoTimer,
    pendingTimers := [demoTimer], nextTimerId := 1, connected := false,
    status := "recording", transcript := "", transcriptKind := "recording",
    hotkeyEdgeActive := false, triggerMode := TriggerMode.pressToTalk,
    wakeRecordMs := 8000, wakeWord := "hey app", transcriptionLanguage := "auto" }

/-- Handler table whose `READY` handler throws; used to exhibit exception
propagation out of the message dispatch. -/
def throwingHandlers : WsClient.Handlers String :=
  { onReady := fun _ => Except.error "handler exception",
    onWake := fun _ _ => Except.ok (),
    onAutoStop := fun _ => Except.ok (),
    onResult := fun _ => Except.ok (),
    onError := fun _ _ => Except.ok () }

/-- A dead timer identifier: every identifier ever used is below
`nextTimerId`, so an identifier that is below `nextTimerId` and absent from
the live-timer list can never fire again (fresh timers always draw a new,
larger identifier). -/
def TimerDead (i : Nat) (s : CoordState) : Prop :=
  i < s.nextTimerId ∧ ∀ t ∈ s.pendingTimers, t.id ≠ i

instance (i : Nat) (s : CoordState) : Decidable (TimerDead i s) := by
  unfold TimerDead; infer_instance

/-! ## Helper lemmas -/

@[simp]
theorem clearWakeAutoStopTimer_wakeAutoStopTimer (s : CoordState) :
    (clearWakeAutoStopTimer s).wakeAutoStopTimer = none := by
  unfold clearWakeAutoStopTimer; split <;> simp_all

@[simp]
theorem clearWakeAutoStopTimer_recordingActive (s : CoordState) :
    (clearWakeAutoStopTimer s).recordingActive = s.recordingActive := by
  unfold clearWakeAutoStopTimer; split <;> rfl

@[simp]
theorem clearWakeAutoStopTimer_connected (s : CoordState) :
    (clearWakeAutoStopTimer s).connected = s.connected := by
  unfold clearWakeAutoStopTimer; split <;> rfl

@[simp]
theorem clearWakeAutoStopTimer_nextTimerId (s : CoordState) :
    (clearWakeAutoStopTimer s).nextTimerId = s.nextTimerId := by
  unfold clearWakeAutoStopTimer; split <;> rfl

@[simp]
theorem clearWakeAutoStopTimer_status (s : CoordState) :
    (clearWakeAutoStopTimer s).status = s.status := by
  unfold clearWakeAutoStopTimer; split <;> rfl

@[simp]
theorem clearWakeAutoStopTimer_triggerMode (s : CoordState) :
    (clearWakeAutoStopTimer s).triggerMode = s.triggerMode := by
  unfold clearWakeAutoStopTimer; split <;> rfl

@[simp]
theorem clearWakeAutoStopTimer_wakeRecordMs (s : CoordState) :
    (clearWakeAutoStopTimer s).wakeRecordMs = s.wakeRecordMs := by
  unfold clearWakeAutoStopTimer; split <;> rfl

@[simp]
theorem clearWakeAutoStopTimer_wakeWord (s : CoordState) :
    (clearWakeAutoStopTimer s).wakeWord = s.wakeWord := by
  unfold clearWakeAutoStopTimer; split <;> rfl

@[simp]
theorem clearWakeAutoStopTimer_transcriptionLanguage (s : CoordState) :
    (clearWakeAutoStopTimer s).transcriptionLanguage = s.transcriptionLanguage := by
  unfold clearWakeAutoStopTimer; split <;> rfl

/-- Membership in the pending timers after a clear implies prior membership. -/
theorem mem_pendingTimers_of_clear {s : CoordState} {p : Timer}
    (hp : p ∈ (clearWakeAutoStopTimer s).pendingTimers) : p ∈ s.pendingTimers := by
  unfold clearWakeAutoStopTimer at hp
  revert hp; split
  · exact id
  · intro hp; exact (List.mem_filter.mp hp).1

/-- `beginRecording` returns immediately while a session is active. -/
theorem beginRecording_of_active (s : CoordState) (r : StartReason)
    (h : s.recordingActive = true) : beginRecording s r = (s, []) := by
  simp [beginRecording, h]

/-- `stopRecording` never emits a `START` frame. -/
theorem start_not_mem_stopRecording (s : CoordState) (r : StopReason)
    (p : Option StartReason) : Frame.start p ∉ (stopRecording s r).2 := by
  by_cases hact : s.recordingActive
  · by_cases hconn : s.connected
    · simp [stopRecording, hact, hconn, setRendererStatus, setRendererTranscript]
    · simp [stopRecording, hact, hconn, setRendererStatus, setRendererTranscript]
  · simp [stopRecording, hact]

/-! ## Claim theorems -/

/-- `beginRecording` emits no frame while a session is active. -/
theorem beginRecording_frames_of_active (s : CoordState) (r : StartReason)
    (h : s.recordingActive = true) : (beginRecording s r).2 = [] := by
  simp [beginRecording, h]

/-- Second projection distributes over an if-then-else. -/
theorem snd_ite {α β : Type} (c : Prop) [Decidable c] (a b : α × β) :
    (if c then a else b).2 = if c then a.2 else b.2 := by
  split <;> rfl

/-- List membership distributes over an if-then-else. -/
theorem mem_ite_list {α : Type} (c : Prop) [Decidable c] (x : α) (l1 l2 : List α) :
    (x ∈ if c then l1 else l2) ↔ (if c then x ∈ l1 else x ∈ l2) := by
  split <;> rfl

/-- C1: a start event arriving while the session's `active` flag is already
set is a no-op — `beginRecording` changes no state and sends nothing — and
consequently no coordinator step ever emits a `START` frame from a state
whose `active` flag is set. -/
theorem one_active_session :
    (∀ (s : CoordState) (r : StartReason),
      s.recordingActive = true → beginRecording s r = (s, [])) ∧
    (∀ (s : CoordState) (e : Event) (p : Option StartReason),
      s.recordingActive = true → Frame.start p ∉ (step s e).2) := by
  constructor
  · exact beginRecording_of_active
  · intro s e p h
    cases e with
    | timerFire id =>
      simp only [step, onTimerFire]
      cases hfind : s.pendingTimers.find? (fun p => p.id = id) with
      | none => simp
      | some t =>
        simp [hfind, h, snd_ite, mem_ite_list, start_not_mem_stopRecording]
    | wakeMsg w =>
      cases w with
      | none =>
        simp [step, onWakeHandler, h, snd_ite, mem_ite_list,
          start_not_mem_stopRecording, beginRecording_frames_of_active]
      | some ww =>
        simp only [step, onWakeHandler, h, snd_ite, mem_ite_list]
        split
        · simp
        · split <;> simp [beginRecording, h]
    | _ =>
      simp [step, onHotkeyStart, onHotkeyStop, onAutoStopHandler, onResultHandler,
        onErrorHandler, h, snd_ite, mem_ite_list, start_not_mem_stopRecording,
        beginRecording_frames_of_active]

/-- C1 witness: concrete evaluation of the re-entrancy guard on an active
hold-to-talk session. -/
theorem one_active_session_witness :
    beginRecording demoActiveHold StartReason.wake = (demoActiveHold, []) :=
  one_active_session.1 demoActiveHold StartReason.wake rfl

/-- C9: an `AUTO_STOP` message received while no session is active leaves the
entire coordinator state untouched (no flag change, no timer armed or
cleared, no status change) and sends no frame at all. -/
theorem autoStop_inactive_discarded (s : CoordState) (r : Option String)
    (h : s.recordingActive = false) : step s (Event.autoStopMsg r) = (s, []) := by
  simp [step, onAutoStopHandler, h]

/-- C9 witness: a concrete silently-discarded `AUTO_STOP`. -/
theorem autoStop_inactive_discarded_witness :
    step demoIdle (Event.autoStopMsg (some "silence")) = (demoIdle, []) :=
  autoStop_inactive_discarded demoIdle (some "silence") rfl

/-- C10: a stop while the session is active but the channel is disconnected
clears the `active` flag and the pending auto-stop timer, reports an error
status, and sends no `STOP` frame — the session is abandoned. -/
theorem stopRecording_disconnected (s : CoordState) (r : StopReason)
    (hact : s.recordingActive = true) (hconn : s.connected = false) :
    (stopRecording s r).2 = [] ∧
    (stopRecording s r).1.recordingActive = false ∧
    (stopRecording s r).1.wakeAutoStopTimer = none ∧
    (stopRecording s r).1.status = "error" ∧
    (∀ t, s.wakeAutoStopTimer = some t →
      ∀ p ∈ (stopRecording s r).1.pendingTimers, p.id ≠ t.id) := by
  cases hw : s.wakeAutoStopTimer with
  | none =>
    simp [stopRecording, clearWakeAutoStopTimer, hw, hact, hconn,
      setRendererStatus, setRendererTranscript]
  | some t =>
    simp only [stopRecording, clearWakeAutoStopTimer, hw, hact, Bool.not_true,
      Bool.false_eq_true, if_false]
    simp only [hconn, Bool.not_false, if_true, setRendererStatus, setRendererTranscript]
    refine ⟨by simp, by simp, by simp, by simp, ?_⟩
    intro t' ht' q hq
    cases ht'
    simpa using (List.mem_filter.mp hq).2

/-- C10 witness: a concrete disconnected stop clears the flag and timer,
reports an error, and sends nothing. -/
theorem stopRecording_disconnected_witness :
    (stopRecording demoDisconnected StopReason.tapSilence).2 = [] ∧
    (stopRecording demoDisconnected StopReason.tapSilence).1.status = "error" :=
  ⟨(stopRecording_disconnected demoDisconnected StopReason.tapSilence rfl rfl).1,
   (stopRecording_disconnected demoDisconnected StopReason.tapSilence rfl rfl).2.2.2.1⟩

/-- C7: calling `send` while the connection is not open is a complete no-op:
the client state (which has no queue or buffer field) is unchanged, no frame
is put on the wire, and no error is produced. -/
theorem send_not_connected (s : WsClient.ClientState) (kind : String)
    (payload : List (String × String)) (h : WsClient.isConnected s = false) :
    WsClient.send s kind payload = (s, []) := by
  have hne : s.ws ≠ some WsClient.ReadyState.opened := by
    simpa [WsClient.isConnected] using h
  simp [WsClient.send, hne]

/-- C7 witness: a concrete no-op `send` on a closed socket. -/
theorem send_not_connected_witness :
    WsClient.send { ws := some WsClient.ReadyState.closed } "START" [] =
      ({ ws := some WsClient.ReadyState.closed }, []) :=
  send_not_connected { ws := some WsClient.ReadyState.closed } "START" [] rfl

/-- C4 counterexample: an exception thrown by a registered handler is NOT
caught inside the channel — dispatching a concrete `READY` frame to a
throwing handler makes the dispatch itself evaluate to the thrown exception,
i.e. the exception escapes the message-dispatch path, refuting the claim that
handler exceptions are caught and logged inside the channel. -/
theorem dispatch_propagates_cex :
    WsClient.dispatchMessage throwingHandlers "READY" WsClient.emptyPayload
      = Except.error "handler exception" := rfl

/-- C4 (amended): the channel's message dispatch applies the registered
handler for each inbound kind directly, with no try/catch and no logging, so
the dispatch outcome is exactly the handler's own outcome — an exception
thrown by the handler propagates out of the dispatch path unchanged. -/
theorem dispatch_applies_handler {ε : Type} (h : WsClient.Handlers ε)
    (p : WsClient.Payload) :
    WsClient.dispatchMessage h "READY" p = h.onReady () ∧
    WsClient.dispatchMessage h "WAKE" p = h.onWake p.wake_word p.heard ∧
    WsClient.dispatchMessage h "AUTO_STOP" p = h.onAutoStop p.reason ∧
    WsClient.dispatchMessage h "RESULT" p = h.onResult (p.text.getD "") ∧
    WsClient.dispatchMessage h "ERROR" p
      = h.onError (p.code.getD "UNKNOWN") (p.message.getD "Unknown error") := by
  refine ⟨rfl, ?_, ?_, ?_, ?_⟩ <;> simp [WsClient.dispatchMessage]

/-- C3 counterexample: starting from a concrete idle wake-word-mode state, a
`WAKE` starts a session and a silence `AUTO_STOP` moves it to the
transcribing phase (status "transcribing", `active` flag cleared, worker
result still pending).  A second `WAKE` arriving in this non-Idle state is
NOT ignored: it sends a new `START` frame with reason "wake" and re-activates
the session, refuting the claim that a `WAKE` received while Transcribing
starts no session. -/
theorem wake_during_transcribing_cex :
    demoTranscribing.status = "transcribing" ∧
    demoTranscribing.recordingActive = false ∧
    (step demoTranscribing (Event.wakeMsg none)).2
      = [Frame.start (some StartReason.wake)] ∧
    (step demoTranscribing (Event.wakeMsg none)).1.recordingActive = true :=
  ⟨rfl, rfl, rfl, rfl⟩

/-- C3 (amended): a `WAKE` from the worker in wake-word mode while the
coordinator is Idle (flag clear, channel connected) starts a session with
reason "wake"; a `WAKE` in any other trigger mode is a complete no-op; and a
`WAKE` while the `active` flag is set (Recording) starts no session and
sends nothing.  The only non-Idle guard is the `active` flag itself, so
during Transcribing — after a stop cleared the flag — a `WAKE` starts a new
session exactly as from Idle (see the counterexample). -/
theorem onWake_guard :
    (∀ (s : CoordState) (w : Option String),
      s.triggerMode = TriggerMode.wakeWord → s.recordingActive = false →
      s.connected = true →
      (step s (Event.wakeMsg w)).2 = [Frame.start (some StartReason.wake)] ∧
      (step s (Event.wakeMsg w)).1.recordingActive = true ∧
      (step s (Event.wakeMsg w)).1.status = "recording") ∧
    (∀ (s : CoordState) (w : Option String),
      s.triggerMode ≠ TriggerMode.wakeWord → step s (Event.wakeMsg w) = (s, [])) ∧
    (∀ (s : CoordState) (w : Option String),
      s.recordingActive = true →
      (step s (Event.wakeMsg w)).2 = [] ∧
      (step s (Event.wakeMsg w)).1.recordingActive = true ∧
      (step s (Event.wakeMsg w)).1.pendingTimers = s.pendingTimers ∧
      (step s (Event.wakeMsg w)).1.wakeAutoStopTimer = s.wakeAutoStopTimer) := by
  refine ⟨?_, ?_, ?_⟩
  · intro s w h1 h2 h3
    cases w with
    | none =>
      simp [step, onWakeHandler, beginRecording, h1, h2, h3,
        setRendererStatus, setRendererTranscript]
    | some ww =>
      by_cases hww : ww ≠ "" ∧ ww ≠ s.wakeWord
      · simp [step, onWakeHandler, beginRecording, h1, h2, h3, hww,
          setRendererStatus, setRendererTranscript]
      · simp [step, onWakeHandler, beginRecording, h1, h2, h3, hww,
          setRendererStatus, setRendererTranscript]
  · intro s w hmode
    simp [step, onWakeHandler, hmode]
  · intro s w h
    by_cases hmode : s.triggerMode = TriggerMode.wakeWord
    · cases w with
      | none => simp [step, onWakeHandler, hmode, beginRecording, h]
      | some ww =>
        by_cases hww : ww ≠ "" ∧ ww ≠ s.wakeWord
        · simp [step, onWakeHandler, hmode, hww, beginRecording, h]
        · simp [step, onWakeHandler, hmode, hww, beginRecording, h]
    · simp [step, onWakeHandler, hmode, h]

/-- C3 witness: the amended wake-start transition evaluated on the concrete
idle state. -/
theorem onWake_guard_witness :
    (step demoIdle (Event.wakeMsg none)).2 = [Frame.start (some StartReason.wake)] ∧
    (step demoIdle (Event.wakeMsg none)).1.recordingActive = true ∧
    (step demoIdle (Event.wakeMsg none)).1.status = "recording" :=
  onWake_guard.1 demoIdle none rfl rfl rfl

/-- Membership in the live timers after `clearWakeAutoStopTimer`. -/
@[simp]
theorem mem_clear_pendingTimers (s : CoordState) (t : Timer) :
    t ∈ (clearWakeAutoStopTimer s).pendingTimers ↔
      (t ∈ s.pendingTimers ∧ ∀ u, s.wakeAutoStopTimer = some u → t.id ≠ u.id) := by
  unfold clearWakeAutoStopTimer
  cases hw : s.wakeAutoStopTimer with
  | none => simp
  | some u =>
    simp only [List.mem_filter]
    constructor
    · rintro ⟨h1, h2⟩
      refine ⟨h1, ?_⟩
      intro v hv
      cases Option.some.inj hv
      simpa using h2
    · rintro ⟨h1, h2⟩
      exact ⟨h1, by simpa using h2 u rfl⟩

/-- `stopRecording` never changes the timer-identifier counter. -/
theorem stopRecording_nextTimerId (s : CoordState) (r : StopReason) :
    (stopRecording s r).1.nextTimerId = s.nextTimerId := by
  by_cases hact : s.recordingActive
  · by_cases hconn : s.connected
    · simp [stopRecording, hact, hconn, setRendererStatus, setRendererTranscript]
    · simp [stopRecording, hact, hconn, setRendererStatus, setRendererTranscript]
  · simp [stopRecording, hact]

/-- `stopRecording` never adds a live timer. -/
theorem mem_stopRecording_pendingTimers {s : CoordState} {r : StopReason} {t : Timer}
    (ht : t ∈ (stopRecording s r).1.pendingTimers) : t ∈ s.pendingTimers := by
  by_cases hact : s.recordingActive
  · by_cases hconn : s.connected
    · simp [stopRecording, hact, hconn, setRendererStatus, setRendererTranscript] at ht
      exact ht.1
    · simp [stopRecording, hact, hconn, setRendererStatus, setRendererTranscript] at ht
      exact ht.1
  · simp only [stopRecording, hact] at ht
    simpa using ht

/-- `beginRecording` never decreases the timer-identifier counter. -/
theorem beginRecording_nextTimerId_ge (s : CoordState) (r : StartReason) :
    s.nextTimerId ≤ (beginRecording s r).1.nextTimerId := by
  by_cases hact : s.recordingActive
  · simp [beginRecording, hact]
  · by_cases hconn : s.connected
    · by_cases hr : r = StartReason.wake ∨ r = StartReason.tap
      · simp [beginRecording, hact, hconn, hr, setRendererStatus, setRendererTranscript]
      · simp [beginRecording, hact, hconn, hr, setRendererStatus, setRendererTranscript]
    · simp [beginRecording, hact, hconn, setRendererStatus, setRendererTranscript]

/-- A timer live after `beginRecording` was live before, or is the freshly
armed timer carrying the pre-state's `nextTimerId`. -/
theorem mem_beginRecording_pendingTimers {s : CoordState} {r : StartReason} {t : Timer}
    (ht : t ∈ (beginRecording s r).1.pendingTimers) :
    t ∈ s.pendingTimers ∨ t.id = s.nextTimerId := by
  by_cases hact : s.recordingActive
  · simp only [beginRecording, hact, if_true] at ht
    exact Or.inl ht
  · by_cases hconn : s.connected
    · by_cases hr : r = StartReason.wake ∨ r = StartReason.tap
      · simp [beginRecording, hact, hconn, hr, setRendererStatus,
          setRendererTranscript] at ht
        rcases ht with h1 | h1
        · exact Or.inl h1.1
        · right
          rw [h1]
      · simp [beginRecording, hact, hconn, hr, setRendererStatus,
          setRendererTranscript] at ht
        exact Or.inl ht
    · simp [beginRecording, hact, hconn, setRendererStatus,
        setRendererTranscript] at ht
      exact Or.inl ht

/-- Dead timers stay dead across `stopRecording`. -/
theorem timerDead_stopRecording {i : Nat} {s : CoordState} (r : StopReason)
    (h : TimerDead i s) : TimerDead i (stopRecording s r).1 := by
  obtain ⟨h1, h2⟩ := h
  refine ⟨by rw [stopRecording_nextTimerId]; exact h1, ?_⟩
  intro t ht
  exact h2 t (mem_stopRecording_pendingTimers ht)

/-- Dead timers stay dead across `beginRecording`: the fresh timer draws a
strictly larger identifier. -/
theorem timerDead_beginRecording {i : Nat} {s : CoordState} (r : StartReason)
    (h : TimerDead i s) : TimerDead i (beginRecording s r).1 := by
  obtain ⟨h1, h2⟩ := h
  refine ⟨lt_of_lt_of_le h1 (beginRecording_nextTimerId_ge s r), ?_⟩
  intro t ht
  rcases mem_beginRecording_pendingTimers ht with h3 | h3
  · exact h2 t h3
  · rw [h3]; omega

/-- Dead timers stay dead across any coordinator step. -/
theorem timerDead_step {i : Nat} {s : CoordState} (e : Event)
    (h : TimerDead i s) : TimerDead i (step s e).1 := by
  obtain ⟨h1, h2⟩ := h
  cases e with
  | hotkeyStart =>
    simp only [step, onHotkeyStart]
    split
    · exact ⟨h1, h2⟩
    · exact timerDead_beginRecording _ ⟨h1, h2⟩
  | hotkeyStop =>
    simp only [step, onHotkeyStop]
    split
    · split
      · exact timerDead_stopRecording _ ⟨h1, h2⟩
      · exact timerDead_beginRecording _ ⟨h1, h2⟩
    · exact timerDead_stopRecording _ ⟨h1, h2⟩
  | wakeMsg w =>
    simp only [step, onWakeHandler]
    split
    · exact ⟨h1, h2⟩
    · cases w with
      | none => exact timerDead_beginRecording _ ⟨h1, h2⟩
      | some ww =>
        have hd : TimerDead i
            (if ww ≠ "" ∧ ww ≠ s.wakeWord then { s with wakeWord := ww } else s) := by
          split
          · exact ⟨h1, h2⟩
          · exact ⟨h1, h2⟩
        exact timerDead_beginRecording _ hd
  | autoStopMsg r =>
    simp only [step, onAutoStopHandler]
    split
    · exact ⟨h1, h2⟩
    · split <;> exact timerDead_stopRecording _ ⟨h1, h2⟩
  | resultMsg txt =>
    simp only [step, onResultHandler, setRendererStatus, setRendererTranscript]
    refine ⟨by simpa using h1, ?_⟩
    intro t ht
    simp at ht
    exact h2 t ht.1
  | errorMsg c m =>
    simp only [step, onErrorHandler, setRendererStatus, setRendererTranscript]
    refine ⟨by simpa using h1, ?_⟩
    intro t ht
    simp at ht
    exact h2 t ht.1
  | timerFire id =>
    simp only [step, onTimerFire]
    cases hfind : s.pendingTimers.find? (fun p => p.id = id) with
    | none => simp only [hfind]; exact ⟨h1, h2⟩
    | some t =>
      simp only [hfind]
      have hsub : TimerDead i
          { s with pendingTimers := s.pendingTimers.filter (fun p => p.id ≠ id) } := by
        refine ⟨h1, ?_⟩
        intro q hq
        exact h2 q (List.mem_filter.mp hq).1
      split
      · exact timerDead_stopRecording _ hsub
      · exact hsub

/-- Dead timers stay dead across any event sequence. -/
theorem timerDead_runEvents {i : Nat} {s : CoordState} (es : List Event)
    (h : TimerDead i s) : TimerDead i (runEvents s es) := by
  induction es generalizing s with
  | nil => exact h
  | cons e es ih => exact ih (timerDead_step e h)

/-- A dead timer identifier cannot fire: its `timerFire` step is the
identity and emits nothing. -/
theorem timerDead_no_fire {i : Nat} {s : CoordState} (h : TimerDead i s) :
    step s (Event.timerFire i) = (s, []) := by
  have hfind : s.pendingTimers.find? (fun p => p.id = i) = none := by
    rw [List.find?_eq_none]
    intro t ht
    simpa using h.2 t ht
  simp [step, onTimerFire, hfind]

/-- C5: the auto-stop timer armed at a wake- or tap-triggered start carries a
duration equal to `wakeRecordMs` clamped to [1200, 30000]ms; while the
session is still active its firing forces the `stopRecording` transition
with a timeout reason; and once a timer identifier is dead — below the
fresh-identifier counter and out of the live list, as every stop path leaves
it (see `timerDead_stopRecording` and the result/error conjunct) — it stays
dead through any further events and its firing is a no-op. -/
theorem wake_autoStop_timer :
    (∀ (s : CoordState) (r : StartReason),
      s.recordingActive = false → s.connected = true →
      (r = StartReason.wake ∨ r = StartReason.tap) →
      (beginRecording s r).1.wakeAutoStopTimer =
        some { id := s.nextTimerId,
               delayMs := max 1200 (min 30000 s.wakeRecordMs),
               startReason := r }) ∧
    (∀ (s : CoordState) (t : Timer),
      s.recordingActive = true →
      s.pendingTimers.find? (fun p => p.id = t.id) = some t →
      step s (Event.timerFire t.id) =
        stopRecording
          { s with pendingTimers := s.pendingTimers.filter (fun p => p.id ≠ t.id) }
          (if t.startReason = StartReason.tap then StopReason.tapTimeout
           else StopReason.wakeTimeout)) ∧
    (∀ (s : CoordState) (r : StopReason) (t : Timer),
      s.recordingActive = true → s.wakeAutoStopTimer = some t →
      t.id < s.nextTimerId → TimerDead t.id (stopRecording s r).1) ∧
    (∀ (s : CoordState) (txt c m : String) (t : Timer),
      s.wakeAutoStopTimer = some t → t.id < s.nextTimerId →
      TimerDead t.id (step s (Event.resultMsg txt)).1 ∧
      TimerDead t.id (step s (Event.errorMsg c m)).1) ∧
    (∀ (s : CoordState) (i : Nat) (es : List Event),
      TimerDead i s →
      step (runEvents s es) (Event.timerFire i) = (runEvents s es, [])) := by
  refine ⟨?_, ?_, ?_, ?_, ?_⟩
  · intro s r h1 h2 h3
    rcases h3 with rfl | rfl <;>
      simp [beginRecording, h1, h2, setRendererStatus, setRendererTranscript]
  · intro s t h1 h2
    simp only [step, onTimerFire, h2]
    simp [h1]
  · intro s r t hact hw hlt
    refine ⟨by rw [stopRecording_nextTimerId]; exact hlt, ?_⟩
    intro p hp
    by_cases hconn : s.connected
    · simp [stopRecording, hact, hconn, setRendererStatus, setRendererTranscript] at hp
      exact hp.2 t hw
    · simp [stopRecording, hact, hconn, setRendererStatus, setRendererTranscript] at hp
      exact hp.2 t hw
  · intro s txt c m t hw hlt
    constructor
    · refine ⟨by simp [step, onResultHandler, setRendererStatus, setRendererTranscript,
        hlt], ?_⟩
      intro p hp
      simp [step, onResultHandler, setRendererStatus, setRendererTranscript] at hp
      exact hp.2 t hw
    · refine ⟨by simp [step, onErrorHandler, setRendererStatus, setRendererTranscript,
        hlt], ?_⟩
      intro p hp
      simp [step, onErrorHandler, setRendererStatus, setRendererTranscript] at hp
      exact hp.2 t hw
  · intro s i es h
    exact timerDead_no_fire (timerDead_runEvents es h)

/-- C5 witness: on the concrete idle state the armed timer is
`wakeRecordMs = 8000` (already inside the clamp window), and after the
hotkey stop kills timer 0 it can no longer fire, even after further
events. -/
theorem wake_autoStop_timer_witness :
    (beginRecording demoIdle StartReason.wake).1.wakeAutoStopTimer =
      some { id := 0, delayMs := 8000, startReason := StartReason.wake } ∧
    step (runEvents (stopRecording demoRecording StopReason.hotkey).1
          [Event.wakeMsg none]) (Event.timerFire 0)
      = (runEvents (stopRecording demoRecording StopReason.hotkey).1
          [Event.wakeMsg none], []) := by
  constructor
  · rw [wake_autoStop_timer.1 demoIdle StartReason.wake rfl rfl (Or.inl rfl)]
    decide
  · exact wake_autoStop_timer.2.2.2.2
      (stopRecording demoRecording StopReason.hotkey).1 0 [Event.wakeMsg none]
      ⟨by decide, by decide⟩

/-- Single-line output of the edge detector, characterized by the flag
transition it causes. -/
theorem processLine_snd (a : Bool) (l : String) :
    (Hotkey.processLine a l).2 =
      if a = (Hotkey.processLine a l).1 then []
      else [if (Hotkey.processLine a l).1 then Hotkey.Cb.onStart else Hotkey.Cb.onStop] := by
  unfold Hotkey.processLine
  by_cases h1 : jsTrim l = "DOWN"
  · cases a <;> simp [h1]
  · by_cases h2 : jsTrim l = "UP"
    · cases a <;> simp [h1, h2]
    · cases a <;> simp [h1, h2]

/-- C6: the callbacks emitted by the key-state line handler are exactly the
edges of the `active`-flag trajectory — one `onStart` per rising edge, one
`onStop` per falling edge, nothing for a line that leaves the flag unchanged
— and in particular a repeated `DOWN` while already firing or a repeated
`UP` while released fires no callback. -/
theorem hotkey_edge_detection :
    (∀ (a : Bool) (lines : List String),
      (Hotkey.processLines a lines).2
        = Hotkey.specEdges a (Hotkey.flagTrace a lines)) ∧
    Hotkey.processLine true "DOWN" = (true, []) ∧
    Hotkey.processLine false "UP" = (false, []) := by
  refine ⟨?_, by decide, by decide⟩
  intro a lines
  induction lines generalizing a with
  | nil => rfl
  | cons l ls ih =>
    simp only [Hotkey.processLines, Hotkey.flagTrace, Hotkey.specEdges]
    rw [ih, processLine_snd]

/-- `weave` unfolds on a cons with a nonempty tail. -/
theorem weave_cons_of_ne_nil (d : Nat) (i : Nat) (l : List Nat) (h : l ≠ []) :
    WsClient.weave d (i :: l)
      = WsClient.CEvent.attempt i :: WsClient.CEvent.sleep d :: WsClient.weave d l := by
  cases l with
  | nil => exact absurd rfl h
  | cons j rest => rfl

/-- `weave` contains one attempt event per woven attempt number. -/
theorem attemptCount_weave (d : Nat) : ∀ l : List Nat,
    WsClient.attemptCount (WsClient.weave d l) = l.length
  | [] => rfl
  | [i] => rfl
  | i :: j :: rest => by
    have ih := attemptCount_weave d (j :: rest)
    simp only [WsClient.weave, WsClient.attemptCount, List.filter] at ih ⊢
    simpa using ih

/-- The retry loop of `connect`, characterized against the first-success
description: starting at `attempt` with `n` attempts allowed, the loop tries
`attempt, attempt+1, ...` with a sleep between consecutive tries, stops with
success at the first `i` with `ok i`, and fails after the `n`-th try
otherwise. -/
theorem connectLoop_eq (ok : Nat → Bool) (d : Nat) :
    ∀ (n attempt : Nat), 0 < n →
      WsClient.connectLoop ok d attempt n =
        (match (List.range' attempt n).find? ok with
         | some k => (WsClient.weave d (List.range' attempt (k + 1 - attempt)), true)
         | none => (WsClient.weave d (List.range' attempt n), false)) := by
  intro n
  induction n with
  | zero => intro attempt h; exact absurd h (by simp)
  | succ m ih =>
    intro attempt _
    cases m with
    | zero =>
      by_cases hok : ok attempt <;>
        simp [WsClient.connectLoop, WsClient.weave, List.range', hok]
    | succ m' =>
      by_cases hok : ok attempt
      · simp [WsClient.connectLoop, WsClient.weave, List.range', hok]
      · have hrec := ih (attempt + 1) (Nat.succ_pos m')
        have hunfold : WsClient.connectLoop ok d attempt (m' + 1 + 1)
            = (WsClient.CEvent.attempt attempt :: WsClient.CEvent.sleep d ::
                (WsClient.connectLoop ok d (attempt + 1) (m' + 1)).1,
               (WsClient.connectLoop ok d (attempt + 1) (m' + 1)).2) := by
          conv_lhs => rw [WsClient.connectLoop]
          simp [hok]
        have hrange : List.range' attempt (m' + 1 + 1)
            = attempt :: List.range' (attempt + 1) (m' + 1) := by
          simp [List.range']
        rw [hunfold, hrec, hrange, List.find?_cons_of_neg _ (by simpa using hok)]
        cases hfind : (List.range' (attempt + 1) (m' + 1)).find? ok with
        | none =>
          simp only []
          rw [weave_cons_of_ne_nil d attempt _ (by simp [List.range'])]
        | some k =>
          have hk : attempt + 1 ≤ k := by
            have hmem := List.mem_of_find?_eq_some hfind
            have := List.mem_range'_1.mp hmem
            omega
          simp only []
          have h2 : k + 1 - (attempt + 1) = k - attempt := by omega
          have h1 : k + 1 - attempt = (k - attempt) + 1 := by omega
          rw [h2, h1]
          have h3 : List.range' attempt (k - attempt + 1)
              = attempt :: List.range' (attempt + 1) (k - attempt) := by
            simp [List.range']
          rw [h3, weave_cons_of_ne_nil d attempt _ ?_]
          have h4 : k - attempt ≠ 0 := by omega
          simp [List.range'_eq_nil, h4]

/-- C8: `connect(maxAttempts, delayMs)` behaves exactly as specified: it
performs attempts `1, 2, ...` with a `delayMs` sleep between consecutive
attempts, resolves at the first attempt that succeeds, performs all
`maxAttempts` attempts and then rejects with the connection error when none
succeeds, and in every case makes at most `maxAttempts` attempts. -/
theorem connect_retry_spec (ok : Nat → Bool) (maxAttempts delayMs : Nat)
    (h : 0 < maxAttempts) :
    WsClient.connect ok maxAttempts delayMs
      = WsClient.connectSpec ok maxAttempts delayMs ∧
    WsClient.attemptCount (WsClient.connect ok maxAttempts delayMs).1 ≤ maxAttempts := by
  have heq := connectLoop_eq ok delayMs maxAttempts 1 h
  constructor
  · rw [WsClient.connect, heq, WsClient.connectSpec]
    cases hfind : (List.range' 1 maxAttempts).find? ok with
    | none => rfl
    | some k => simp
  · rw [WsClient.connect, heq]
    cases hfind : (List.range' 1 maxAttempts).find? ok with
    | none =>
      simp only []
      rw [attemptCount_weave]
      simp
    | some k =>
      have hk := List.mem_range'_1.mp (List.mem_of_find?_eq_some hfind)
      simp only []
      rw [attemptCount_weave]
      simp only [List.length_range']
      omega

/-- Attempt oracle for the C8 witness: only the second attempt succeeds. -/
def demoAttemptOutcome (i : Nat) : Bool := i == 2

/-- C8 witness: with five allowed attempts and success on attempt 2, the
call makes attempts 1 and 2 with one sleep in between and resolves. -/
theorem connect_retry_spec_witness :
    WsClient.connect demoAttemptOutcome 5 100
      = WsClient.connectSpec demoAttemptOutcome 5 100 ∧
    WsClient.attemptCount (WsClient.connect demoAttemptOutcome 5 100).1 ≤ 5 :=
  connect_retry_spec demoAttemptOutcome 5 100 (by decide)

/-- The ledger after `handleCrashAndRestart`: prune to the trailing 30s
window, then append the crash time (identical on both outcome branches). -/
theorem handleCrash_ledger (now : Int) (s : Watchdog.WatchdogState) :
    (Watchdog.handleCrashAndRestart now s).1.restartTimestamps
      = s.restartTimestamps.filter (fun ts => now - ts ≤ 30000) ++ [now] := by
  simp only [Watchdog.handleCrashAndRestart]
  split <;> rfl

/-- The outcome of `handleCrashAndRestart`, phrased on the pruned count. -/
theorem handleCrash_outcome (now : Int) (s : Watchdog.WatchdogState) :
    (Watchdog.handleCrashAndRestart now s).2
      = (if (s.restartTimestamps.filter (fun ts => now - ts ≤ 30000)).length + 1 > 3
         then Watchdog.CrashOutcome.fatal Watchdog.fatalMessage
         else Watchdog.CrashOutcome.respawn 500) := by
  unfold Watchdog.handleCrashAndRestart
  simp only [List.length_append, List.length_singleton]
  split <;> rfl

/-- One crash appended to a crash sequence. -/
theorem crashSeq_concat (ts : List Int) (t : Int) :
    Watchdog.crashSeq (ts ++ [t])
      = (Watchdog.handleCrashAndRestart t (Watchdog.crashSeq ts)).1 := by
  simp [Watchdog.crashSeq, List.foldl_append]

/-- Pruning at a later time subsumes pruning at an earlier time. -/
theorem filter_window_filter_window (l : List Int) {u t : Int} (hut : u ≤ t) :
    (l.filter (fun x => u - x ≤ 30000)).filter (fun x => t - x ≤ 30000)
      = l.filter (fun x => t - x ≤ 30000) := by
  rw [List.filter_filter]
  apply List.filter_congr
  intro x _
  by_cases hc : t - x ≤ 30000
  · have hc2 : u - x ≤ 30000 := by omega
    simp [hc, hc2]
  · simp [hc]

/-- Ledger after a monotone sequence of crashes: exactly the crash times
within 30 seconds of the last crash survive. -/
theorem crashSeq_ledger : ∀ (ts : List Int) (t : Int),
    List.Sorted (· ≤ ·) (ts ++ [t]) →
    (Watchdog.crashSeq (ts ++ [t])).restartTimestamps
      = (ts ++ [t]).filter (fun x => t - x ≤ 30000) := by
  intro ts
  induction ts using List.reverseRecOn with
  | nil =>
    intro t _
    simp [Watchdog.crashSeq, Watchdog.handleCrashAndRestart, Watchdog.initWatchdog]
  | append_singleton us u ih =>
    intro t hsorted
    have hprefix : List.Sorted (· ≤ ·) (us ++ [u]) :=
      (List.pairwise_append.mp hsorted).1
    have hut : u ≤ t :=
      (List.pairwise_append.mp hsorted).2.2 u (by simp) t (by simp)
    rw [crashSeq_concat, handleCrash_ledger, ih u hprefix,
      filter_window_filter_window _ hut]
    have ht : List.filter (fun x : Int => decide (t - x ≤ 30000)) [t] = [t] := by
      have h0 : t - t ≤ 30000 := by omega
      simp [List.filter, h0]
    conv_rhs => rw [List.filter_append]
    rw [ht]

/-- C2: a worker exit is handled only when it is neither intentional nor a
clean exit (code 0); the crash handler prunes ledger entries older than 30
seconds, appends the crash time, schedules a respawn after a fixed 500ms
delay when the pruned count (current crash included) is at most 3, and
produces the fatal message with no respawn when it exceeds 3.  For a
monotone crash sequence the final crash is fatal exactly when more than 3 of
all crashes (itself included) lie within 30 seconds of it; concretely, 4
crashes inside 30s make the 4th fatal, while a crash 31s after the only
prior crash leaves a one-entry ledger and schedules restart #1. -/
theorem watchdog_restart_spec :
    (∀ (now : Int) (code : Option Int) (s : Watchdog.WatchdogState),
      s.stopping = true ∨ code = some 0 →
      Watchdog.onChildExit now code s = ({ s with childAlive := false }, none)) ∧
    (∀ (now : Int) (code : Option Int) (s : Watchdog.WatchdogState),
      s.stopping = false → code ≠ some 0 →
      Watchdog.onChildExit now code s
        = ((Watchdog.handleCrashAndRestart now { s with childAlive := false }).1,
           some (Watchdog.handleCrashAndRestart now { s with childAlive := false }).2)) ∧
    (∀ (now : Int) (s : Watchdog.WatchdogState),
      (Watchdog.handleCrashAndRestart now s).1.restartTimestamps
        = s.restartTimestamps.filter (fun ts => now - ts ≤ 30000) ++ [now] ∧
      ((s.restartTimestamps.filter (fun ts => now - ts ≤ 30000)).length + 1 ≤ 3 →
        (Watchdog.handleCrashAndRestart now s).2 = Watchdog.CrashOutcome.respawn 500) ∧
      ((s.restartTimestamps.filter (fun ts => now - ts ≤ 30000)).length + 1 > 3 →
        (Watchdog.handleCrashAndRestart now s).2
          = Watchdog.CrashOutcome.fatal Watchdog.fatalMessage)) ∧
    (∀ (ts : List Int) (t : Int),
      List.Sorted (· ≤ ·) (ts ++ [t]) →
      ((Watchdog.handleCrashAndRestart t (Watchdog.crashSeq ts)).2
          = Watchdog.CrashOutcome.fatal Watchdog.fatalMessage
        ↔ ((ts ++ [t]).filter (fun x => t - x ≤ 30000)).length > 3)) ∧
    ((Watchdog.handleCrashAndRestart 29000 (Watchdog.crashSeq [0, 10000, 20000])).2
        = Watchdog.CrashOutcome.fatal Watchdog.fatalMessage ∧
     (Watchdog.handleCrashAndRestart 31000 (Watchdog.crashSeq [0])).2
        = Watchdog.CrashOutcome.respawn 500 ∧
     (Watchdog.crashSeq [0, 31000]).restartTimestamps = [31000]) := by
  refine ⟨?_, ?_, ?_, ?_, by decide, by decide, by decide⟩
  · intro now code s h
    rcases h with h | h <;> simp [Watchdog.onChildExit, h]
  · intro now code s h1 h2
    simp [Watchdog.onChildExit, h1, h2]
  · intro now s
    refine ⟨handleCrash_ledger now s, ?_, ?_⟩
    · intro h
      rw [handleCrash_outcome]
      simp only [if_neg (by omega : ¬ (s.restartTimestamps.filter
        (fun ts => now - ts ≤ 30000)).length + 1 > 3)]
    · intro h
      rw [handleCrash_outcome]
      simp only [if_pos h]
  · intro ts t hsorted
    rcases List.eq_nil_or_concat ts with rfl | ⟨us, u, rfl⟩
    · rw [handleCrash_outcome]
      simp [Watchdog.crashSeq, Watchdog.initWatchdog]
    · simp only [List.concat_eq_append] at hsorted ⊢
      have hprefix : List.Sorted (· ≤ ·) (us ++ [u]) :=
        (List.pairwise_append.mp hsorted).1
      have hut : u ≤ t :=
        (List.pairwise_append.mp hsorted).2.2 u (by simp) t (by simp)
      rw [handleCrash_outcome, crashSeq_ledger us u hprefix,
        filter_window_filter_window _ hut]
      have ht : List.filter (fun x : Int => decide (t - x ≤ 30000)) [t] = [t] := by
        have h0 : t - t ≤ 30000 := by omega
        simp [List.filter, h0]
      conv_rhs => rw [List.filter_append, ht]
      rw [List.length_append, List.length_singleton]
      by_cases hn :
          ((us ++ [u]).filter (fun x => t - x ≤ 30000)).length + 1 > 3
      · simp [if_pos hn, hn]
        omega
      · simp [if_neg hn, hn]
        omega

/-- C2 witness: the monotone-sequence characterization evaluated on the
concrete 4-crashes-in-30-seconds scenario. -/
theorem watchdog_restart_spec_witness :
    (Watchdog.handleCrashAndRestart 29000 (Watchdog.crashSeq [0, 10000, 20000])).2
        = Watchdog.CrashOutcome.fatal Watchdog.fatalMessage
      ↔ (([0, 10000, 20000] ++ [29000] : List Int).filter
          (fun x => 29000 - x ≤ 30000)).length > 3 :=
  watchdog_restart_spec.2.2.2.1 [0, 10000, 20000] 29000 (by decide)
